import Mathlib


/-
Verification of m101tools against its specification.

The repository has two Python modules:
  * m101tools/checker.py : class SetupChecker with seven check methods and
    run_all, accumulating outcomes in a dict self.results;
  * m101tools/gpu.py : three free functions init / memory / utilization over
    the pynvml telemetry library.

Shallow embedding: all interactions with the outside world (sys.version,
the torch and importlib imports, pynvml calls, the filesystem, os.getenv
and dotenv) are collected in a `World` oracle.  Each check method becomes a
function `World → SetupChecker → CheckResult`, where `CheckResult.exn e s`
means a Python exception with message `e` escaped the method, leaving the
checker object in state `s` (Python objects survive a raised exception).
Python dict assignment `d[k] = v` is `dictInsert`: replace in place if the
key is present, otherwise append.
-/

set_option autoImplicit false


namespace M101Tools


/-- Primitive values stored inside a result record: Python strings,
booleans, ints, floats (modelled as rationals), None, and lists of
strings. -/
inductive Prim where
  | pstr (s : String)
  | pbool (b : Bool)
  | pint (n : Int)
  | pnum (q : Rat)
  | pnone
  | plist (xs : List String)
deriving DecidableEq, Repr


/-- A value of the results mapping: the "python" entry is a bare version
string; every other entry is a small string-keyed record. -/
inductive RVal where
  | vstr (s : String)
  | vdict (d : List (String × Prim))
deriving DecidableEq, Repr


/-- Python dict assignment `d[k] = v` on an association list: replace the
first binding of `k` in place, otherwise append at the end. -/
def dictInsert : List (String × RVal) → String → RVal → List (String × RVal)
  | [], k, v => [(k, v)]
  | (k', v') :: rest, k, v =>
    if k' = k then (k, v) :: rest else (k', v') :: dictInsert rest k v


/-- Python dict lookup `d.get(k)` on an association list. -/
def dictGet : List (String × RVal) → String → Option RVal
  | [], _ => none
  | (k', v') :: rest, k => if k' = k then some v' else dictGet rest k


/-- Lookup inside an inner record (a result value's dict). -/
def pdictGet : List (String × Prim) → String → Option Prim
  | [], _ => none
  | (k', v') :: rest, k => if k' = k then some v' else pdictGet rest k


/-- What `import torch` exposes when the import succeeds:
torch.__version__, torch.cuda.is_available(), torch.version.cuda (None when
built without CUDA), and torch.cuda.get_device_name(0), which may itself
raise. -/
structure TorchInfo where
  version : String
  cuda_available : Bool
  cuda_version : Option String
  device_name0 : Except String String
deriving Repr


/-- The record returned by nvmlDeviceGetMemoryInfo, in bytes. -/
structure MemInfo where
  free : Nat
  total : Nat
  used : Nat
deriving DecidableEq, Repr


/-- nvmlDeviceGetName returns either raw bytes or a str. -/
inductive NvRaw where
  | bytes (s : String)
  | str (s : String)
deriving DecidableEq, Repr


/-- Outcome of importlib.import_module on one name: success, an
ImportError (the only class check_dependencies catches), or any other
exception raised while the module is being imported. -/
inductive ImportRes where
  | ok
  | importErr (msg : String)
  | otherErr (msg : String)
deriving DecidableEq, Repr


/-- The external world as seen by the two modules: every library call or
filesystem touch the source performs, as a deterministic oracle.  A call
that can raise in Python yields an `Except String` result carrying the
stringified exception. -/
structure World where
  sysVersion : String
  importTorch : Except String TorchInfo
  nvmlInitRes : Except String Unit
  nvmlHandle : Nat → Except String Nat
  nvmlMemInfo : Nat → Except String MemInfo
  nvmlName : Nat → Except String NvRaw
  nvmlUtil : Nat → Except String Rat
  pathExists : String → Bool
  readLines : String → Except String (List String)
  getenv : String → Option String
  loadDotenv : String → Except String Unit
  importMod : String → ImportRes


/-- The SetupChecker object: the three constructor fields plus the results
dict. -/
structure SetupChecker where
  env_path : String
  model_path : Option String
  dependencies : List String
  results : List (String × RVal)
deriving DecidableEq, Repr


/-- Outcome of calling one check method: normal return, or a Python
exception with message `e` escaping the method while the checker object is
left in state `s`. -/
inductive CheckResult where
  | ok (s : SetupChecker)
  | exn (e : String) (s : SetupChecker)
deriving DecidableEq, Repr


/-- Sequencing of method calls: an escaped exception aborts the rest. -/
def CheckResult.andThen (r : CheckResult) (f : SetupChecker → CheckResult) : CheckResult :=
  match r with
  | .ok s => f s
  | .exn e s => .exn e s


/-- SetupChecker.__init__: stores env_path and model_path as given and
`dependencies or []` (None and the empty list are both falsy), plus an
empty results dict.  The source defaults are env_path=".env",
model_path=None, dependencies=None. -/
def SetupChecker.init (env_path : String) (model_path : Option String)
    (dependencies : Option (List String)) : SetupChecker :=
  { env_path := env_path
    model_path := model_path
    dependencies :=
      match dependencies with
      | none => []
      | some l => if l.isEmpty then [] else l
    results := [] }


/-- `self.results[k] = v`. -/
def SetupChecker.record (s : SetupChecker) (k : String) (v : RVal) : SetupChecker :=
  { s with results := dictInsert s.results k v }


/-- check_python: records sys.version under "python"; cannot fail. -/
def SetupChecker.check_python (w : World) (s : SetupChecker) : CheckResult :=
  .ok (s.record "python" (.vstr w.sysVersion))


/-- Conversion of an optional string to the stored Python value. -/
def optStr : Option String → Prim
  | some s => .pstr s
  | none => .pnone


/-- check_pytorch: the whole body (import plus the four queries) sits in
one try; any exception is stringified into an "error" entry. -/
def SetupChecker.check_pytorch (w : World) (s : SetupChecker) : CheckResult :=
  match w.importTorch with
  | .error e => .ok (s.record "pytorch" (.vdict [("error", .pstr e)]))
  | .ok t =>
    match (if t.cuda_available then t.device_name0.map some
           else .ok none : Except String (Option String)) with
    | .error e => .ok (s.record "pytorch" (.vdict [("error", .pstr e)]))
    | .ok gm =>
      .ok (s.record "pytorch" (.vdict
        [("version", .pstr t.version),
         ("cuda_available", .pbool t.cuda_available),
         ("cuda_version", optStr t.cuda_version),
         ("gpu_model", optStr gm)]))


/-- check_gpu_memory: nvmlInit, handle by index, memory info, all in one
try; on success converts free/total bytes to GB. -/
def SetupChecker.check_gpu_memory (w : World) (device_index : Nat)
    (s : SetupChecker) : CheckResult :=
  match (do
      let _ ← w.nvmlInitRes
      let h ← w.nvmlHandle device_index
      w.nvmlMemInfo h : Except String MemInfo) with
  | .error e => .ok (s.record "gpu_memory" (.vdict [("error", .pstr e)]))
  | .ok m =>
    .ok (s.record "gpu_memory" (.vdict
      [("free_gb", .pnum ((m.free : Rat) / (1024 : Rat) ^ 3)),
       ("total_gb", .pnum ((m.total : Rat) / (1024 : Rat) ^ 3))]))


/-- Python str.strip() with no argument: remove leading and trailing
whitespace, modelled structurally on the character list. -/
def pyStrip (s : String) : String :=
  String.mk (((s.data.dropWhile Char.isWhitespace).reverse.dropWhile
    Char.isWhitespace).reverse)


/-- Python s.startswith("#"): the first character is '#'. -/
def startsWithHash (s : String) : Bool :=
  match s.data with
  | [] => false
  | c :: _ => c == '#'


/-- The line filter of check_env: keep lines that are non-blank and do not
start with '#' after stripping whitespace. -/
def envLineKept (l : String) : Bool :=
  !(pyStrip l).data.isEmpty && !startsWithHash (pyStrip l)


/-- check_env: if the path exists, open it and count the kept lines —
note the body has NO try/except, so a failure of open() or of reading
escapes the method; if the path does not exist, record found: False. -/
def SetupChecker.check_env (w : World) (s : SetupChecker) : CheckResult :=
  if w.pathExists s.env_path then
    match w.readLines s.env_path with
    | .error e => .exn e s
    | .ok ls =>
      let lines := ls.filter envLineKept
      .ok (s.record "env" (.vdict
        [("found", .pbool true), ("count", .pint lines.length)]))
  else
    .ok (s.record "env" (.vdict [("found", .pbool false)]))


/-- check_dotenv: load_dotenv(self.env_path) inside a try. -/
def SetupChecker.check_dotenv (w : World) (s : SetupChecker) : CheckResult :=
  match w.loadDotenv s.env_path with
  | .ok _ => .ok (s.record "dotenv" (.vdict [("loaded", .pbool true)]))
  | .error e => .ok (s.record "dotenv" (.vdict [("error", .pstr e)]))


/-- The path resolution of check_model_path:
`self.model_path or os.getenv("MODEL_PATH", "")`.  Python `or` falls
through on ANY falsy value, so an explicit empty string behaves like
None. -/
def resolve_model_path (w : World) (s : SetupChecker) : String :=
  match s.model_path with
  | some p => if p = "" then (w.getenv "MODEL_PATH").getD "" else p
  | none => (w.getenv "MODEL_PATH").getD ""


/-- check_model_path: `if path and os.path.exists(path)`. -/
def SetupChecker.check_model_path (w : World) (s : SetupChecker) : CheckResult :=
  let path := resolve_model_path w s
  if !path.isEmpty && w.pathExists path then
    .ok (s.record "model" (.vdict [("found", .pbool true), ("path", .pstr path)]))
  else
    .ok (s.record "model" (.vdict [("found", .pbool false), ("path", .pstr path)]))


/-- The loop of check_dependencies: try to import each name, appending to
`missing` on ImportError; any other exception escapes the loop. -/
def depsLoop (w : World) : List String → List String → Except String (List String)
  | [], acc => .ok acc
  | d :: rest, acc =>
    match w.importMod d with
    | .ok => depsLoop w rest acc
    | .importErr _ => depsLoop w rest (acc ++ [d])
    | .otherErr e => .error e


/-- check_dependencies: runs the import loop; only ImportError is caught
per item, so a module that raises anything else makes the whole method
raise before results["dependencies"] is assigned. -/
def SetupChecker.check_dependencies (w : World) (s : SetupChecker) : CheckResult :=
  match depsLoop w s.dependencies [] with
  | .ok missing =>
    .ok (s.record "dependencies" (.vdict [("missing", .plist missing)]))
  | .error e => .exn e s


/-- run_all: the six checks in their fixed order, then check_dependencies
only when the configured list is non-empty; returns (the state holding)
self.results. -/
def SetupChecker.run_all (w : World) (s : SetupChecker) : CheckResult :=
  (((((SetupChecker.check_python w s).andThen
      (SetupChecker.check_pytorch w)).andThen
      (SetupChecker.check_gpu_memory w 0)).andThen
      (SetupChecker.check_env w)).andThen
      (SetupChecker.check_dotenv w)).andThen
      (SetupChecker.check_model_path w) |>.andThen
      (fun s2 =>
        if s2.dependencies.isEmpty then .ok s2
        else SetupChecker.check_dependencies w s2)


/-! ### The GPU monitor (gpu.py) -/

/-- One observable side effect of a gpu.py function: an invocation of the
telemetry library, or a printed console line. -/
inductive GpuEffect where
  | nvCall (name : String)
  | printed (line : String)
deriving DecidableEq, Repr


namespace GPU


/-- decode of nvmlDeviceGetName's result: bytes are decoded, str passes
through. -/
def decodeName : NvRaw → String
  | .bytes s => s
  | .str s => s


/-- gpu.init: nvmlInit, handle 0, device name, print; on any failure print
a warning and return None (the "unavailable" sentinel). -/
def init (w : World) : Option Nat × List GpuEffect :=
  match (do
      let _ ← w.nvmlInitRes
      let h ← w.nvmlHandle 0
      let raw ← w.nvmlName h
      pure (h, raw) : Except String (Nat × NvRaw)) with
  | .ok (h, raw) =>
    (some h,
     [.nvCall "nvmlInit", .nvCall "nvmlDeviceGetHandleByIndex",
      .nvCall "nvmlDeviceGetName",
      .printed ("[GPU] Using " ++ decodeName raw)])
  | .error e =>
    (none, [.printed ("[WARNING] GPU monitoring is not available: " ++ e)])


/-- Python round(x, 2): round half to even at two decimal places.  The
float-representation noise of CPython is not modelled; the arithmetic is
exact on rationals. -/
def pyRound2 (q : Rat) : Rat :=
  let n : Int := Int.floor (q * 100)
  let r : Rat := q * 100 - (n : Rat)
  let i : Int :=
    if r < 1 / 2 then n
    else if 1 / 2 < r then n + 1
    else if n % 2 = 0 then n else n + 1
  (i : Rat) / 100


/-- gpu.memory: 0.0 immediately on the sentinel (no telemetry call); on a
live handle query used bytes, convert to GB and round to two decimals; on
a query failure print a warning and return 0.0. -/
def memory (w : World) (handle : Option Nat) : Rat × List GpuEffect :=
  match handle with
  | none => (0, [])
  | some h =>
    match w.nvmlMemInfo h with
    | .ok m =>
      (pyRound2 ((m.used : Rat) / (1024 : Rat) ^ 3),
       [.nvCall "nvmlDeviceGetMemoryInfo"])
    | .error e =>
      (0, [.nvCall "nvmlDeviceGetMemoryInfo",
           .printed ("[WARNING] Failed to get GPU memory: " ++ e)])


/-- gpu.utilization: 0.0 on the sentinel; on a live handle return util.gpu;
on a query failure return 0.0 with no printed warning. -/
def utilization (w : World) (handle : Option Nat) : Rat × List GpuEffect :=
  match handle with
  | none => (0, [])
  | some h =>
    match w.nvmlUtil h with
    | .ok u => (u, [.nvCall "nvmlDeviceGetUtilizationRates"])
    | .error _ => (0, [.nvCall "nvmlDeviceGetUtilizationRates"])


end GPU



/-- A concrete world for exercising the theorems: no torch, no NVML, no
files, no MODEL_PATH, dotenv loads, every import succeeds. -/
def bareWorld : World :=
  { sysVersion := "3.11.0"
    importTorch := .error "No module named torch"
    nvmlInitRes := .error "NVML Shared Library Not Found"
    nvmlHandle := fun _ => .error "Uninitialized"
    nvmlMemInfo := fun _ => .error "Uninitialized"
    nvmlName := fun _ => .error "Uninitialized"
    nvmlUtil := fun _ => .error "Uninitialized"
    pathExists := fun _ => false
    readLines := fun _ => .error "FileNotFoundError"
    getenv := fun _ => none
    loadDotenv := fun _ => .ok ()
    importMod := fun _ => .ok }

/-- The checker state produced by run_all under `bareWorld` on a default
construction. -/
def bareRun : SetupChecker :=
  { env_path := ".env"
    model_path := none
    dependencies := []
    results :=
      [("python", .vstr "3.11.0"),
       ("pytorch", .vdict [("error", .pstr "No module named torch")]),
       ("gpu_memory", .vdict [("error", .pstr "NVML Shared Library Not Found")]),
       ("env", .vdict [("found", .pbool false)]),
       ("dotenv", .vdict [("loaded", .pbool true)]),
       ("model", .vdict [("found", .pbool false), ("path", .pstr "")])] }

/-- A world in which the configured env file exists but cannot be opened
(for instance, the path is a directory). -/
def roWorld : World :=
  { bareWorld with
    pathExists := fun _ => true
    readLines := fun _ => .error "IsADirectoryError: [Errno 21] Is a directory" }

/-- A world in which importing "badmod" raises a non-ImportError exception
(for instance a SyntaxError in the module's own source). -/
def badImportWorld : World :=
  { bareWorld with
    importMod := fun d =>
      if d = "badmod" then .otherErr "SyntaxError: invalid syntax" else .ok }

/-- A world in which importing "ghostmod" raises ImportError and every
other import succeeds. -/
def impWorld : World :=
  { bareWorld with
    importMod := fun d =>
      if d = "ghostmod" then .importErr "No module named ghostmod" else .ok }

/-- A world holding one readable env file with two data lines, one comment
line and one blank line. -/
def fileWorld : World :=
  { bareWorld with
    pathExists := fun p => p == "config/.env"
    readLines := fun p =>
      if p == "config/.env" then .ok ["# comment", "A=1", "  ", "B=2"]
      else .error "FileNotFoundError" }

/-- A world with a live GPU at handle 7 (2.5 GiB used, 37 percent
utilization) and failing queries on every other handle. -/
def gpuWorld : World :=
  { bareWorld with
    nvmlMemInfo := fun h =>
      if h == 7 then .ok { free := 1073741824, total := 8589934592, used := 2684354560 }
      else .error "GPU is lost"
    nvmlUtil := fun h => if h == 7 then .ok 37 else .error "GPU is lost" }

/-- A world in which MODEL_PATH is set to an existing path. -/
def envModelWorld : World :=
  { bareWorld with
    getenv := fun k => if k = "MODEL_PATH" then some "/mnt/models" else none
    pathExists := fun p => p == "/mnt/models" }

/-- Frame specification of one successful check: its own key is present
afterwards, every other key is bound exactly as before, and no key
disappears. -/
def writesExactly (s s' : SetupChecker) (key : String) : Prop :=
  (dictGet s'.results key).isSome = true ∧
  (∀ k, k ≠ key → dictGet s'.results k = dictGet s.results k) ∧
  (∀ k, (dictGet s.results k).isSome = true → (dictGet s'.results k).isSome = true)

/-- Whether one import attempt raised ImportError (the class the loop
catches). -/
def isImportErr : ImportRes → Bool
  | .importErr _ => true
  | _ => false

/-- Modelled from the spec's words, for comparison with the code's
`resolve_model_path`: the claimed rule where an explicitly given
constructor path is always used and MODEL_PATH is read only when no
explicit path was given. -/
def claimed_resolve_model_path (model_path : Option String)
    (envVar : Option String) : String :=
  match model_path with
  | some p => p
  | none => envVar.getD ""


end M101Tools


namespace M101Tools


/-! ### Association-list lemmas -/

@[simp] theorem dictInsert_nil (k : String) (v : RVal) :
    dictInsert [] k v = [(k, v)] := rfl


@[simp] theorem dictInsert_cons (k' : String) (v' : RVal)
    (rest : List (String × RVal)) (k : String) (v : RVal) :
    dictInsert ((k', v') :: rest) k v =
      if k' = k then (k, v) :: rest else (k', v') :: dictInsert rest k v := rfl


theorem dictInsert_idem (m : List (String × RVal)) (k : String) (v : RVal) :
    dictInsert (dictInsert m k v) k v = dictInsert m k v := by
  induction m with
  | nil => simp
  | cons p rest ih =>
    obtain ⟨k', v'⟩ := p
    by_cases h : k' = k
    · simp [h]
    · simp [h, ih]


theorem dictGet_dictInsert (m : List (String × RVal)) (k k' : String) (v : RVal) :
    dictGet (dictInsert m k v) k' = if k' = k then some v else dictGet m k' := by
  induction m with
  | nil =>
    by_cases h : k' = k
    · subst h; simp [dictGet]
    · simp [dictGet, h, Ne.symm h]
  | cons p rest ih =>
    obtain ⟨k2, v2⟩ := p
    by_cases h2 : k2 = k
    · subst h2
      by_cases h : k' = k2
      · subst h; simp [dictGet]
      · simp [dictGet, h, Ne.symm h]
    · by_cases h : k' = k2
      · subst h
        simp [dictGet, h2, Ne.symm h2, ih]
      · simp [dictGet, h2, h, Ne.symm h, ih]


/-! ### Small facts about record and the shapes of the checks -/

@[simp] theorem record_env_path (s : SetupChecker) (k : String) (v : RVal) :
    (s.record k v).env_path = s.env_path := rfl


@[simp] theorem record_model_path (s : SetupChecker) (k : String) (v : RVal) :
    (s.record k v).model_path = s.model_path := rfl


@[simp] theorem record_dependencies (s : SetupChecker) (k : String) (v : RVal) :
    (s.record k v).dependencies = s.dependencies := rfl


@[simp] theorem record_results (s : SetupChecker) (k : String) (v : RVal) :
    (s.record k v).results = dictInsert s.results k v := rfl


theorem check_python_shape (w : World) (s : SetupChecker) :
    ∃ v, SetupChecker.check_python w s = .ok (s.record "python" v) :=
  ⟨.vstr w.sysVersion, rfl⟩


theorem check_pytorch_shape (w : World) (s : SetupChecker) :
    ∃ v, SetupChecker.check_pytorch w s = .ok (s.record "pytorch" v) := by
  unfold SetupChecker.check_pytorch
  rcases hT : w.importTorch with e | t
  · exact ⟨_, rfl⟩
  · dsimp only
    rcases hG : (if t.cuda_available then t.device_name0.map some
                 else .ok none : Except String (Option String)) with e | gm
    · exact ⟨_, rfl⟩
    · exact ⟨_, rfl⟩


theorem check_gpu_memory_shape (w : World) (i : Nat) (s : SetupChecker) :
    ∃ v, SetupChecker.check_gpu_memory w i s = .ok (s.record "gpu_memory" v) := by
  unfold SetupChecker.check_gpu_memory
  rcases hM : (do
      let _ ← w.nvmlInitRes
      let h ← w.nvmlHandle i
      w.nvmlMemInfo h : Except String MemInfo) with e | m
  · exact ⟨_, rfl⟩
  · exact ⟨_, rfl⟩


theorem check_env_shape (w : World) (s : SetupChecker) :
    (∃ v, SetupChecker.check_env w s = .ok (s.record "env" v)) ∨
    (∃ e, SetupChecker.check_env w s = .exn e s) := by
  by_cases hp : w.pathExists s.env_path = true
  · rcases hr : w.readLines s.env_path with e | ls
    · refine .inr ⟨e, ?_⟩
      simp [SetupChecker.check_env, hp, hr]
    · refine .inl ⟨.vdict [("found", .pbool true),
        ("count", .pint ((ls.filter envLineKept).length : Int))], ?_⟩
      simp [SetupChecker.check_env, hp, hr]
  · refine .inl ⟨.vdict [("found", .pbool false)], ?_⟩
    simp [SetupChecker.check_env, hp]


theorem check_dotenv_shape (w : World) (s : SetupChecker) :
    ∃ v, SetupChecker.check_dotenv w s = .ok (s.record "dotenv" v) := by
  unfold SetupChecker.check_dotenv
  rcases hD : w.loadDotenv s.env_path with e | u
  · exact ⟨_, rfl⟩
  · exact ⟨_, rfl⟩


theorem check_model_path_shape (w : World) (s : SetupChecker) :
    ∃ v, SetupChecker.check_model_path w s = .ok (s.record "model" v) := by
  by_cases hc : (!(resolve_model_path w s).isEmpty &&
      w.pathExists (resolve_model_path w s)) = true
  · refine ⟨.vdict [("found", .pbool true),
      ("path", .pstr (resolve_model_path w s))], ?_⟩
    simp [SetupChecker.check_model_path, hc]
  · refine ⟨.vdict [("found", .pbool false),
      ("path", .pstr (resolve_model_path w s))], ?_⟩
    simp [SetupChecker.check_model_path, hc]


theorem check_dependencies_shape (w : World) (s : SetupChecker) :
    (∃ v, SetupChecker.check_dependencies w s = .ok (s.record "dependencies" v)) ∨
    (∃ e, SetupChecker.check_dependencies w s = .exn e s) := by
  unfold SetupChecker.check_dependencies
  rcases hL : depsLoop w s.dependencies [] with e | missing
  · exact .inr ⟨e, rfl⟩
  · exact .inl ⟨_, rfl⟩


end M101Tools


namespace M101Tools


@[simp] theorem init_results (e : String) (m : Option String)
    (d : Option (List String)) : (SetupChecker.init e m d).results = [] := rfl


/-- C10: the constructor stores `dependencies or []`, so the stored field
equals the given list when one was given and the empty list when the
argument was None or the (falsy) empty list; it is never a None value. -/
theorem init_dependencies_never_none (e : String) (m : Option String) :
    (∀ d, (SetupChecker.init e m d).dependencies = d.getD []) ∧
    (SetupChecker.init e m none).dependencies = [] ∧
    (SetupChecker.init e m (some [])).dependencies = [] := by
  refine ⟨fun d => ?_, rfl, rfl⟩
  rcases d with _ | l
  · rfl
  · rcases l with _ | ⟨a, l⟩ <;> rfl


/-- C2: run_all on a freshly constructed checker accumulates the results
entries in the fixed invocation order python, pytorch, gpu_memory, env,
dotenv, model, followed by dependencies exactly when the configured
dependency list is non-empty; with no dependencies configured the returned
mapping has no "dependencies" entry at all. -/
theorem run_all_fresh_order (w : World) (e : String) (m : Option String)
    (d : Option (List String)) (r : SetupChecker)
    (h : SetupChecker.run_all w (SetupChecker.init e m d) = .ok r) :
    r.results.map Prod.fst =
      ["python", "pytorch", "gpu_memory", "env", "dotenv", "model"] ++
        (if (SetupChecker.init e m d).dependencies = [] then []
         else ["dependencies"]) ∧
    ((SetupChecker.init e m d).dependencies = [] →
      dictGet r.results "dependencies" = none) := by
  set s0 := SetupChecker.init e m d with hs0
  obtain ⟨v1, h1⟩ := check_python_shape w s0
  obtain ⟨v2, h2⟩ := check_pytorch_shape w (s0.record "python" v1)
  obtain ⟨v3, h3⟩ :=
    check_gpu_memory_shape w 0 ((s0.record "python" v1).record "pytorch" v2)
  unfold SetupChecker.run_all at h
  rw [h1] at h; simp only [CheckResult.andThen] at h
  rw [h2] at h; simp only [CheckResult.andThen] at h
  rw [h3] at h; simp only [CheckResult.andThen] at h
  rcases check_env_shape w
      (((s0.record "python" v1).record "pytorch" v2).record "gpu_memory" v3)
    with ⟨v4, h4⟩ | ⟨ex, h4⟩
  · rw [h4] at h; simp only [CheckResult.andThen] at h
    obtain ⟨v5, h5⟩ := check_dotenv_shape w
      ((((s0.record "python" v1).record "pytorch" v2).record
        "gpu_memory" v3).record "env" v4)
    rw [h5] at h; simp only [CheckResult.andThen] at h
    obtain ⟨v6, h6⟩ := check_model_path_shape w
      (((((s0.record "python" v1).record "pytorch" v2).record
        "gpu_memory" v3).record "env" v4).record "dotenv" v5)
    rw [h6] at h; simp only [CheckResult.andThen] at h
    simp only [record_dependencies] at h
    by_cases hd : s0.dependencies = []
    · simp only [hd, List.isEmpty_nil, if_true] at h
      injection h with h
      subst h
      refine ⟨?_, fun _ => ?_⟩
      · rw [hd]
        simp only [if_pos rfl, List.append_nil]
        simp [SetupChecker.record, hs0, SetupChecker.init, dictInsert]
      · simp [SetupChecker.record, hs0, SetupChecker.init, dictInsert, dictGet]
    · have hne : (s0.dependencies).isEmpty = false := by
        simpa [List.isEmpty_iff] using hd
      simp only [hne, Bool.false_eq_true, if_false] at h
      rcases check_dependencies_shape w
        ((((((s0.record "python" v1).record "pytorch" v2).record
          "gpu_memory" v3).record "env" v4).record "dotenv" v5).record
          "model" v6) with ⟨v7, h7⟩ | ⟨ex, h7⟩
      · rw [h7] at h
        injection h with h
        subst h
        refine ⟨?_, fun hcon => absurd hcon hd⟩
        rw [if_neg hd]
        simp [SetupChecker.record, hs0, SetupChecker.init, dictInsert]
      · rw [h7] at h
        exact absurd h (by simp)
  · rw [h4] at h; simp only [CheckResult.andThen] at h
    exact absurd h (by simp)


end M101Tools


namespace M101Tools


/-- Witness for the run_all ordering theorem at a concrete world with no
configured dependencies. -/
theorem run_all_fresh_order_witness :
    SetupChecker.run_all bareWorld (SetupChecker.init ".env" none none) = .ok bareRun ∧
    bareRun.results.map Prod.fst =
      ["python", "pytorch", "gpu_memory", "env", "dotenv", "model"] ++
        (if (SetupChecker.init ".env" none none).dependencies = [] then []
         else ["dependencies"]) ∧
    dictGet bareRun.results "dependencies" = none :=
  ⟨by decide,
   (run_all_fresh_order bareWorld ".env" none none bareRun (by decide)).1,
   (run_all_fresh_order bareWorld ".env" none none bareRun (by decide)).2 (by decide)⟩


theorem record_record_same (s : SetupChecker) (k : String) (v : RVal) :
    (s.record k v).record k v = s.record k v := by
  unfold SetupChecker.record
  simp [dictInsert_idem]


@[simp] theorem resolve_model_path_record (w : World) (s : SetupChecker)
    (k : String) (v : RVal) :
    resolve_model_path w (s.record k v) = resolve_model_path w s := rfl


/-- C8: each check operation is idempotent on the checker state under an
unchanged external world: calling it a second time right away overwrites
its own results entry with the same value, leaving the state (and so the
results mapping) exactly as after one call; a check that raised raises
identically again. -/
theorem checks_idempotent (w : World) (s : SetupChecker) (i : Nat) :
    (SetupChecker.check_python w s).andThen (SetupChecker.check_python w) =
      SetupChecker.check_python w s ∧
    (SetupChecker.check_pytorch w s).andThen (SetupChecker.check_pytorch w) =
      SetupChecker.check_pytorch w s ∧
    (SetupChecker.check_gpu_memory w i s).andThen (SetupChecker.check_gpu_memory w i) =
      SetupChecker.check_gpu_memory w i s ∧
    (SetupChecker.check_env w s).andThen (SetupChecker.check_env w) =
      SetupChecker.check_env w s ∧
    (SetupChecker.check_dotenv w s).andThen (SetupChecker.check_dotenv w) =
      SetupChecker.check_dotenv w s ∧
    (SetupChecker.check_model_path w s).andThen (SetupChecker.check_model_path w) =
      SetupChecker.check_model_path w s ∧
    (SetupChecker.check_dependencies w s).andThen (SetupChecker.check_dependencies w) =
      SetupChecker.check_dependencies w s := by
  refine ⟨?_, ?_, ?_, ?_, ?_, ?_, ?_⟩
  · simp [SetupChecker.check_python, CheckResult.andThen, record_record_same]
  · rcases hT : w.importTorch with e | t
    · simp [SetupChecker.check_pytorch, hT, CheckResult.andThen, record_record_same]
    · rcases hG : (if t.cuda_available then t.device_name0.map some
                   else .ok none : Except String (Option String)) with e | gm <;>
        simp [SetupChecker.check_pytorch, hT, hG, CheckResult.andThen, record_record_same]
  · rcases hM : (do
        let _ ← w.nvmlInitRes
        let h ← w.nvmlHandle i
        w.nvmlMemInfo h : Except String MemInfo) with e | mm <;>
      simp [SetupChecker.check_gpu_memory, hM, CheckResult.andThen, record_record_same]
  · by_cases hp : w.pathExists s.env_path = true
    · rcases hr : w.readLines s.env_path with e | ls
      · simp [SetupChecker.check_env, hp, hr, CheckResult.andThen]
      · simp [SetupChecker.check_env, hp, hr, CheckResult.andThen, record_record_same]
    · simp [SetupChecker.check_env, hp, CheckResult.andThen, record_record_same]
  · rcases hD : w.loadDotenv s.env_path with e | u <;>
      simp [SetupChecker.check_dotenv, hD, CheckResult.andThen, record_record_same]
  · by_cases hc : (!(resolve_model_path w s).isEmpty &&
        w.pathExists (resolve_model_path w s)) = true
    · simp [SetupChecker.check_model_path, hc, CheckResult.andThen, record_record_same]
    · simp [SetupChecker.check_model_path, hc, CheckResult.andThen, record_record_same]
  · rcases hL : depsLoop w s.dependencies [] with e | missing
    · simp [SetupChecker.check_dependencies, hL, CheckResult.andThen]
    · simp [SetupChecker.check_dependencies, hL, CheckResult.andThen, record_record_same]


end M101Tools


namespace M101Tools


theorem record_writesExactly (s : SetupChecker) (key : String) (v : RVal) :
    writesExactly s (s.record key v) key := by
  refine ⟨?_, ?_, ?_⟩
  · simp [dictGet_dictInsert]
  · intro k hk
    simp [dictGet_dictInsert, hk]
  · intro k hk
    by_cases h : k = key
    · simp [dictGet_dictInsert, h]
    · simpa [dictGet_dictInsert, h] using hk


/-- C9 counterexample: check_env on a world where the env path exists but
reading it raises writes no entry at all — the method raises and the
results mapping (still empty here) gains no "env" key, refuting "every
check operation writes exactly one entry". -/
theorem check_env_writes_no_entry_on_read_failure :
    SetupChecker.check_env roWorld (SetupChecker.init "." none none) =
      .exn "IsADirectoryError: [Errno 21] Is a directory"
        (SetupChecker.init "." none none) ∧
    dictGet (SetupChecker.init "." none none).results "env" = none :=
  ⟨by decide, by decide⟩


/-- C9 amended: the results mapping is created empty at construction; a
check that returns normally writes exactly one entry, under its own fixed
key, leaving every other entry unchanged and removing nothing; a check
that raises (check_env, check_dependencies) leaves the checker state, and
so the results mapping, entirely unchanged. -/
theorem checks_frame (w : World) (s : SetupChecker) (i : Nat) :
    (∀ e m d, (SetupChecker.init e m d).results = []) ∧
    (∀ s', SetupChecker.check_python w s = .ok s' → writesExactly s s' "python") ∧
    (∀ s', SetupChecker.check_pytorch w s = .ok s' → writesExactly s s' "pytorch") ∧
    (∀ s', SetupChecker.check_gpu_memory w i s = .ok s' → writesExactly s s' "gpu_memory") ∧
    (∀ s', SetupChecker.check_env w s = .ok s' → writesExactly s s' "env") ∧
    (∀ s', SetupChecker.check_dotenv w s = .ok s' → writesExactly s s' "dotenv") ∧
    (∀ s', SetupChecker.check_model_path w s = .ok s' → writesExactly s s' "model") ∧
    (∀ s', SetupChecker.check_dependencies w s = .ok s' → writesExactly s s' "dependencies") ∧
    (∀ e2 s', SetupChecker.check_env w s = .exn e2 s' → s' = s) ∧
    (∀ e2 s', SetupChecker.check_dependencies w s = .exn e2 s' → s' = s) := by
  refine ⟨fun e m d => rfl, ?_, ?_, ?_, ?_, ?_, ?_, ?_, ?_, ?_⟩
  · intro s' h
    obtain ⟨v, hv⟩ := check_python_shape w s
    rw [hv] at h; injection h with h; subst h
    exact record_writesExactly s _ v
  · intro s' h
    obtain ⟨v, hv⟩ := check_pytorch_shape w s
    rw [hv] at h; injection h with h; subst h
    exact record_writesExactly s _ v
  · intro s' h
    obtain ⟨v, hv⟩ := check_gpu_memory_shape w i s
    rw [hv] at h; injection h with h; subst h
    exact record_writesExactly s _ v
  · intro s' h
    rcases check_env_shape w s with ⟨v, hv⟩ | ⟨e2, hv⟩
    · rw [hv] at h; injection h with h; subst h
      exact record_writesExactly s _ v
    · rw [hv] at h; exact absurd h (by simp)
  · intro s' h
    obtain ⟨v, hv⟩ := check_dotenv_shape w s
    rw [hv] at h; injection h with h; subst h
    exact record_writesExactly s _ v
  · intro s' h
    obtain ⟨v, hv⟩ := check_model_path_shape w s
    rw [hv] at h; injection h with h; subst h
    exact record_writesExactly s _ v
  · intro s' h
    rcases check_dependencies_shape w s with ⟨v, hv⟩ | ⟨e2, hv⟩
    · rw [hv] at h; injection h with h; subst h
      exact record_writesExactly s _ v
    · rw [hv] at h; exact absurd h (by simp)
  · intro e2 s' h
    rcases check_env_shape w s with ⟨v, hv⟩ | ⟨e3, hv⟩
    · rw [hv] at h; exact absurd h (by simp)
    · rw [hv] at h; injection h with h1 h2; exact h2.symm
  · intro e2 s' h
    rcases check_dependencies_shape w s with ⟨v, hv⟩ | ⟨e3, hv⟩
    · rw [hv] at h; exact absurd h (by simp)
    · rw [hv] at h; injection h with h1 h2; exact h2.symm


/-- Witness for the frame theorem: a concrete successful check and a
concrete raising check. -/
theorem checks_frame_witness :
    writesExactly (SetupChecker.init ".env" none none)
      ((SetupChecker.init ".env" none none).record "python" (.vstr "3.11.0"))
      "python" ∧
    SetupChecker.init "." none none = SetupChecker.init "." none none :=
  ⟨(checks_frame bareWorld (SetupChecker.init ".env" none none) 0).2.1
      ((SetupChecker.init ".env" none none).record "python" (.vstr "3.11.0"))
      (by decide),
   (checks_frame roWorld (SetupChecker.init "." none none) 0).2.2.2.2.2.2.2.2.1
      "IsADirectoryError: [Errno 21] Is a directory"
      (SetupChecker.init "." none none) (by decide)⟩


end M101Tools


namespace M101Tools


end M101Tools


namespace M101Tools


theorem depsLoop_ok (w : World) :
    ∀ (l acc : List String),
      (∀ d ∈ l, ∀ e, w.importMod d ≠ .otherErr e) →
      depsLoop w l acc =
        .ok (acc ++ l.filter (fun d => isImportErr (w.importMod d))) := by
  intro l
  induction l with
  | nil => intro acc h; simp [depsLoop]
  | cons d rest ih =>
    intro acc h
    rcases hm : w.importMod d with _ | msg | msg
    · have hr := ih acc (fun d2 hd2 e => h d2 (List.mem_cons_of_mem _ hd2) e)
      simp [depsLoop, hm, hr, isImportErr, List.filter_cons]
    · have hr := ih (acc ++ [d]) (fun d2 hd2 e => h d2 (List.mem_cons_of_mem _ hd2) e)
      simp [depsLoop, hm, hr, isImportErr, List.filter_cons]
    · exact absurd hm (h d (List.mem_cons_self _ _) msg)


/-- C3 counterexample: with a non-empty dependency list whose import fails
with a non-ImportError exception, check_dependencies records nothing under
"dependencies" — the exception escapes before the assignment runs. -/
theorem check_dependencies_can_skip_recording :
    (SetupChecker.init ".env" none (some ["badmod"])).dependencies = ["badmod"] ∧
    SetupChecker.check_dependencies badImportWorld
        (SetupChecker.init ".env" none (some ["badmod"])) =
      .exn "SyntaxError: invalid syntax"
        (SetupChecker.init ".env" none (some ["badmod"])) ∧
    dictGet (SetupChecker.init ".env" none (some ["badmod"])).results
      "dependencies" = none :=
  ⟨by decide, by decide, by decide⟩


/-- C3 amended: for a non-empty configured dependency list in which no
configured import raises anything other than ImportError, the method records
under "dependencies" a record whose "missing" value is exactly the subset
of the configured names whose import raises ImportError, in input order;
when every name imports, that filter — hence "missing" — is empty. -/
theorem check_dependencies_missing_exact (w : World) (s : SetupChecker)
    (_hne : s.dependencies ≠ [])
    (hsafe : ∀ d ∈ s.dependencies, ∀ e, w.importMod d ≠ .otherErr e) :
    SetupChecker.check_dependencies w s =
      .ok (s.record "dependencies" (.vdict [("missing",
        .plist (s.dependencies.filter (fun d => isImportErr (w.importMod d))))])) ∧
    ((∀ d ∈ s.dependencies, w.importMod d = .ok) →
      s.dependencies.filter (fun d => isImportErr (w.importMod d)) = []) := by
  constructor
  · have hl := depsLoop_ok w s.dependencies [] hsafe
    simp [SetupChecker.check_dependencies, hl]
  · intro hall
    rw [List.filter_eq_nil_iff]
    intro d hd
    rw [hall d hd]
    simp [isImportErr]


/-- Witness for the dependency theorem: two configured names, one of which
fails to import, yielding missing == \x5b"ghostmod"\x5d. -/
theorem check_dependencies_missing_exact_witness :
    SetupChecker.check_dependencies impWorld
        (SetupChecker.init ".env" none (some ["fastapi", "ghostmod"])) =
      .ok ((SetupChecker.init ".env" none (some ["fastapi", "ghostmod"])).record
        "dependencies" (.vdict [("missing", .plist ["ghostmod"])])) := by
  have hsafe : ∀ d ∈ (SetupChecker.init ".env" none
      (some ["fastapi", "ghostmod"])).dependencies,
      ∀ e, impWorld.importMod d ≠ .otherErr e := by
    intro d hd e
    have hd2 : d = "fastapi" ∨ d = "ghostmod" := by
      simpa [SetupChecker.init] using hd
    rcases hd2 with rfl | rfl <;> simp [impWorld, bareWorld]
  have h := (check_dependencies_missing_exact impWorld
    (SetupChecker.init ".env" none (some ["fastapi", "ghostmod"]))
    (by decide) hsafe).1
  exact h.trans (by decide)


end M101Tools


namespace M101Tools


/-- C4 counterexample: with an explicit model path that is the empty
string, the code falls through Python's falsy `or` and uses MODEL_PATH,
recording found: true with the environment path — while the claimed rule
resolves to "" and would record found: false. -/
theorem model_path_empty_string_counterexample :
    (SetupChecker.init ".env" (some "") none).model_path = some "" ∧
    resolve_model_path envModelWorld (SetupChecker.init ".env" (some "") none) =
      "/mnt/models" ∧
    claimed_resolve_model_path
      (SetupChecker.init ".env" (some "") none).model_path
      (envModelWorld.getenv "MODEL_PATH") = "" ∧
    SetupChecker.check_model_path envModelWorld
        (SetupChecker.init ".env" (some "") none) =
      .ok ((SetupChecker.init ".env" (some "") none).record "model"
        (.vdict [("found", .pbool true), ("path", .pstr "/mnt/models")])) :=
  ⟨by decide, by decide, by decide, by decide⟩


/-- C4 amended: a non-empty explicit model path is used as given and
MODEL_PATH is ignored; with no explicit path, or with the (falsy) explicit
empty string, MODEL_PATH (default "") is used; the recorded entry carries
the resolved path and found is the conjunction "path non-empty and
exists", which — since os.path.exists("") is always false — agrees with
plain filesystem existence of the resolved path. -/
theorem check_model_path_resolution (w : World) (s : SetupChecker) :
    (∀ p, s.model_path = some p → p ≠ "" → resolve_model_path w s = p) ∧
    (s.model_path = none →
      resolve_model_path w s = (w.getenv "MODEL_PATH").getD "") ∧
    (s.model_path = some "" →
      resolve_model_path w s = (w.getenv "MODEL_PATH").getD "") ∧
    SetupChecker.check_model_path w s =
      .ok (s.record "model" (.vdict
        [("found", .pbool (!(resolve_model_path w s).isEmpty &&
            w.pathExists (resolve_model_path w s))),
         ("path", .pstr (resolve_model_path w s))])) ∧
    (w.pathExists "" = false →
      (!(resolve_model_path w s).isEmpty &&
          w.pathExists (resolve_model_path w s)) =
        w.pathExists (resolve_model_path w s)) := by
  refine ⟨?_, ?_, ?_, ?_, ?_⟩
  · intro p hp hne
    simp [resolve_model_path, hp, hne]
  · intro hp
    simp [resolve_model_path, hp]
  · intro hp
    simp [resolve_model_path, hp]
  · cases hc : (!(resolve_model_path w s).isEmpty &&
        w.pathExists (resolve_model_path w s)) <;>
      simp [SetupChecker.check_model_path, hc]
  · intro h0
    by_cases he : resolve_model_path w s = ""
    · rw [he]
      simp [h0]
    · have hne2 : (resolve_model_path w s).isEmpty = false := by
        cases hcase : (resolve_model_path w s).isEmpty
        · rfl
        · exact absurd ((String.isEmpty_iff _).mp hcase) he
      simp [hne2]


/-- Witness for the model-path theorem: an explicit non-empty path wins
over the set MODEL_PATH, and found agrees with existence. -/
theorem check_model_path_resolution_witness :
    resolve_model_path envModelWorld
      (SetupChecker.init ".env" (some "F:/w") none) = "F:/w" ∧
    resolve_model_path envModelWorld (SetupChecker.init ".env" none none) =
      "/mnt/models" ∧
    ((!(resolve_model_path envModelWorld
          (SetupChecker.init ".env" none none)).isEmpty &&
        envModelWorld.pathExists (resolve_model_path envModelWorld
          (SetupChecker.init ".env" none none))) =
      envModelWorld.pathExists (resolve_model_path envModelWorld
        (SetupChecker.init ".env" none none))) :=
  ⟨(check_model_path_resolution envModelWorld
      (SetupChecker.init ".env" (some "F:/w") none)).1 "F:/w" rfl (by decide),
   (check_model_path_resolution envModelWorld
      (SetupChecker.init ".env" none none)).2.1 rfl,
   (check_model_path_resolution envModelWorld
      (SetupChecker.init ".env" none none)).2.2.2.2 (by decide)⟩


end M101Tools


namespace M101Tools


/-- C5: check_env on a non-existing path records exactly found: False with
no count key; on an existing, readable file it records found: True and
count = the number of lines that are non-blank and not '#'-comments after
stripping. -/
theorem check_env_spec (w : World) (s : SetupChecker) :
    (w.pathExists s.env_path = false →
      SetupChecker.check_env w s =
        .ok (s.record "env" (.vdict [("found", .pbool false)])) ∧
      pdictGet [("found", .pbool false)] "count" = none) ∧
    (∀ ls, w.pathExists s.env_path = true → w.readLines s.env_path = .ok ls →
      SetupChecker.check_env w s =
        .ok (s.record "env" (.vdict
          [("found", .pbool true),
           ("count", .pint ((ls.filter envLineKept).length : Int))]))) := by
  constructor
  · intro hp
    constructor
    · simp [SetupChecker.check_env, hp]
    · rfl
  · intro ls hp hr
    simp [SetupChecker.check_env, hp, hr]


/-- Witness for check_env: a missing file yields found: False and an
existing file with two counted lines yields found: True, count 2. -/
theorem check_env_spec_witness :
    SetupChecker.check_env bareWorld (SetupChecker.init ".env" none none) =
      .ok ((SetupChecker.init ".env" none none).record "env"
        (.vdict [("found", .pbool false)])) ∧
    SetupChecker.check_env fileWorld (SetupChecker.init "config/.env" none none) =
      .ok ((SetupChecker.init "config/.env" none none).record "env"
        (.vdict [("found", .pbool true), ("count", .pint 2)])) := by
  constructor
  · exact ((check_env_spec bareWorld (SetupChecker.init ".env" none none)).1 rfl).1
  · have h := (check_env_spec fileWorld
      (SetupChecker.init "config/.env" none none)).2
      ["# comment", "A=1", "  ", "B=2"] (by decide) rfl
    exact h.trans (by decide)


/-! ### GPU monitor claims -/

/-- C6: memory on the sentinel returns 0.0 with no telemetry call and no
output; on a live handle it returns used bytes converted to GB and rounded
to two decimal places; on a failing query it returns 0.0 and prints a
warning. -/
theorem gpu_memory_spec (w : World) (h : Nat) :
    GPU.memory w none = (0, []) ∧
    (∀ m, w.nvmlMemInfo h = .ok m →
      GPU.memory w (some h) =
        (GPU.pyRound2 ((m.used : Rat) / (1024 : Rat) ^ 3),
         [.nvCall "nvmlDeviceGetMemoryInfo"])) ∧
    (∀ e, w.nvmlMemInfo h = .error e →
      GPU.memory w (some h) =
        (0, [.nvCall "nvmlDeviceGetMemoryInfo",
             .printed ("[WARNING] Failed to get GPU memory: " ++ e)])) := by
  refine ⟨rfl, ?_, ?_⟩
  · intro m hm
    simp [GPU.memory, hm]
  · intro e he
    simp [GPU.memory, he]


/-- Witness for the memory theorem: 2684354560 bytes is exactly 2.5 GB,
and a failing handle yields 0.0 plus the warning line. -/
theorem gpu_memory_spec_witness :
    GPU.memory gpuWorld (some 7) = (5 / 2, [.nvCall "nvmlDeviceGetMemoryInfo"]) ∧
    GPU.memory gpuWorld (some 8) =
      (0, [.nvCall "nvmlDeviceGetMemoryInfo",
           .printed "[WARNING] Failed to get GPU memory: GPU is lost"]) := by
  constructor
  · have h := (gpu_memory_spec gpuWorld 7).2.1
      { free := 1073741824, total := 8589934592, used := 2684354560 } rfl
    rw [h]
    simp only [Prod.mk.injEq, and_true]
    norm_num [GPU.pyRound2]
  · have h := (gpu_memory_spec gpuWorld 8).2.2 "GPU is lost" rfl
    exact h.trans (by decide)


/-- C7: utilization on the sentinel returns 0.0; on a live handle it
returns the reported percentage (so it lies in 0..100 whenever the library
reports a value in that range); on a failing query it returns 0.0 silently,
with no printed line in its effects. -/
theorem gpu_utilization_spec (w : World) (h : Nat) :
    GPU.utilization w none = (0, []) ∧
    (∀ u, w.nvmlUtil h = .ok u →
      GPU.utilization w (some h) = (u, [.nvCall "nvmlDeviceGetUtilizationRates"]) ∧
      (0 ≤ u → u ≤ 100 →
        0 ≤ (GPU.utilization w (some h)).1 ∧ (GPU.utilization w (some h)).1 ≤ 100)) ∧
    (∀ e, w.nvmlUtil h = .error e →
      GPU.utilization w (some h) = (0, [.nvCall "nvmlDeviceGetUtilizationRates"]) ∧
      (∀ line, GpuEffect.printed line ∉ (GPU.utilization w (some h)).2)) := by
  refine ⟨rfl, ?_, ?_⟩
  · intro u hu
    constructor
    · simp [GPU.utilization, hu]
    · intro h0 h100
      simp [GPU.utilization, hu]
      exact ⟨h0, h100⟩
  · intro e he
    constructor
    · simp [GPU.utilization, he]
    · intro line
      simp [GPU.utilization, he]


/-- Witness for the utilization theorem: handle 7 reports 37 (inside
0..100) and handle 8 fails silently. -/
theorem gpu_utilization_spec_witness :
    GPU.utilization gpuWorld (some 7) = (37, [.nvCall "nvmlDeviceGetUtilizationRates"]) ∧
    (0 ≤ (GPU.utilization gpuWorld (some 7)).1 ∧
      (GPU.utilization gpuWorld (some 7)).1 ≤ 100) ∧
    GPU.utilization gpuWorld (some 8) = (0, [.nvCall "nvmlDeviceGetUtilizationRates"]) ∧
    (∀ line, GpuEffect.printed line ∉ (GPU.utilization gpuWorld (some 8)).2) :=
  ⟨((gpu_utilization_spec gpuWorld 7).2.1 37 rfl).1,
   ((gpu_utilization_spec gpuWorld 7).2.1 37 rfl).2 (by norm_num) (by norm_num),
   ((gpu_utilization_spec gpuWorld 8).2.2 "GPU is lost" rfl).1,
   ((gpu_utilization_spec gpuWorld 8).2.2 "GPU is lost" rfl).2⟩


end M101Tools
